import Mathlib

/-!
Verification development for the TimeTaskTracker repository.

The client-side notification scheduler (client/src/lib/notifications.ts) is
embedded shallowly: the JS `Map<number | string, number>` keyed by `task.id`
(due-now alert) or by the derived string key (reminder alert) becomes an
association list over a two-constructor key type; `window.setTimeout` /
`clearTimeout` become explicit manipulation of a pending-timer list with a
fresh-id counter (browser timer ids are positive integers, so the counter
starts at 1); timer callbacks become first-class `Callback` values run by
`fireTimer`.  Times are integers (milliseconds since epoch), matching
`Date.getTime()`.  The platform `Notification` constructor may throw; this is
modelled by a boolean `ctorThrows` input, and an uncaught exception escaping a
callback is the boolean second component of the firing result.

The server side (shared schema validation, storage, routes embedded from
shared/schema.ts, server/storage.ts and server/routes.ts) is modelled for the
POST / GET task routes; the external JS date parser `new Date(str)` is a
function parameter.
-/

namespace TTT

/-- Task rows as selected from the `tasks` table (shared/schema.ts): id is the
serial primary key, `scheduledDate` and `createdAt` are timestamps modelled in
milliseconds since epoch. -/
structure Task where
  id : Int
  title : String
  scheduledDate : Int
  priority : String
  category : String
  completed : Bool
  createdAt : Int
deriving DecidableEq, Repr

/-- Keys of the scheduler's `scheduledNotifications` map: the due-now alert is
stored under the task's own numeric `id`, the reminder alert under the derived
string key built from the id, so the two kinds can never collide. -/
inductive AlertKey where
  | due (id : Int)
  | reminder (id : Int)
deriving DecidableEq, Repr

/-- A timer callback as passed to `window.setTimeout` by the scheduler. -/
inductive Callback where
  | fireReminder (task : Task)
  | fireExact (task : Task)
  | autoClose
deriving DecidableEq, Repr

/-- A pending one-shot timer: its browser handle, the delay it was scheduled
with (ms from "now" at scheduling time) and its callback. -/
structure PendingTimer where
  timerId : Nat
  delay : Int
  cb : Callback
deriving DecidableEq, Repr

/-- State of a `NotificationService` instance together with the browser timer
queue: the internal permission flag, the `scheduledNotifications` map, the
pending timers, and the next timer handle the browser will hand out. -/
structure SchedulerState where
  permissionGranted : Bool
  scheduledNotifications : List (AlertKey × Nat)
  pendingTimers : List PendingTimer
  nextTimerId : Nat
deriving DecidableEq, Repr

/-- JS `Map.get`: value of the first (and, keys being unique, only) entry. -/
def mapGet (m : List (AlertKey × Nat)) (k : AlertKey) : Option Nat :=
  (m.find? (fun p => decide (p.1 = k))).map (fun p => p.2)

/-- JS `Map.has`. -/
def mapHas (m : List (AlertKey × Nat)) (k : AlertKey) : Bool :=
  m.any (fun p => decide (p.1 = k))

/-- JS `Map.set`: update the existing entry in place, else append. -/
def mapSet (m : List (AlertKey × Nat)) (k : AlertKey) (v : Nat) : List (AlertKey × Nat) :=
  if mapHas m k then m.map (fun p => if p.1 = k then (k, v) else p)
  else m ++ [(k, v)]

/-- JS `Map.delete`. -/
def mapDelete (m : List (AlertKey × Nat)) (k : AlertKey) : List (AlertKey × Nat) :=
  m.filter (fun p => !decide (p.1 = k))

/-- `window.setTimeout(cb, delay)`: enqueue a fresh timer, return its handle. -/
def setTimeout (s : SchedulerState) (cb : Callback) (delay : Int) : Nat × SchedulerState :=
  (s.nextTimerId,
   { s with pendingTimers := s.pendingTimers ++ [⟨s.nextTimerId, delay, cb⟩],
            nextTimerId := s.nextTimerId + 1 })

/-- `clearTimeout(tid)`: cancel the pending timer with that handle, if any. -/
def clearTimeout (s : SchedulerState) (tid : Nat) : SchedulerState :=
  { s with pendingTimers := s.pendingTimers.filter (fun pt => !decide (pt.timerId = tid)) }

/-- `NotificationService.clearNotification(taskId)` (notifications.ts
lines 156-170): look up and cancel the due-now entry, then the reminder entry.
The JS `if (timeoutId)` test is truthiness: it fails both on a missing entry
and on a handle equal to 0. -/
def clearNotification (s : SchedulerState) (taskId : Int) : SchedulerState :=
  let s1 :=
    match mapGet s.scheduledNotifications (AlertKey.due taskId) with
    | some tid =>
        if tid ≠ 0 then
          let s2 := clearTimeout s tid
          let m2 := mapDelete s2.scheduledNotifications (AlertKey.due taskId)
          { s2 with scheduledNotifications := m2 }
        else s
    | none => s
  match mapGet s1.scheduledNotifications (AlertKey.reminder taskId) with
  | some tid =>
      if tid ≠ 0 then
        let s2 := clearTimeout s1 tid
        let m2 := mapDelete s2.scheduledNotifications (AlertKey.reminder taskId)
        { s2 with scheduledNotifications := m2 }
      else s1
  | none => s1

/-- `NotificationService.scheduleNotification(task)` (notifications.ts
lines 69-102): no-op without permission; otherwise clear existing alerts for
the id, skip past-due tasks, then schedule the reminder timer only when its
offset is strictly positive and always schedule the due-now timer, recording
both handles in the map. -/
def scheduleNotification (s : SchedulerState) (now : Int) (task : Task) : SchedulerState :=
  if s.permissionGranted = false then s
  else
    let s1 := clearNotification s task.id
    let timeDiff := task.scheduledDate - now
    if timeDiff < 0 then s1
    else
      let reminderTime := max (timeDiff - 5 * 60 * 1000) 0
      let s2 :=
        if reminderTime > 0 then
          let r := setTimeout s1 (Callback.fireReminder task) reminderTime
          let m2 := mapSet r.2.scheduledNotifications (AlertKey.reminder task.id) r.1
          { r.2 with scheduledNotifications := m2 }
        else s1
      let e := setTimeout s2 (Callback.fireExact task) timeDiff
      let m3 := mapSet e.2.scheduledNotifications (AlertKey.due task.id) e.1
      { e.2 with scheduledNotifications := m3 }

/-- `NotificationService.showReminderNotification(task)` (lines 104-128):
early return without permission; otherwise the platform `Notification`
constructor runs (it may throw, and there is no try/catch here, so a throw
escapes: second component `true`); on success the sound is played (its own
errors are swallowed inside `playNotificationSound`) and an auto-close timer
of 10 s is queued.  The map is never touched here. -/
def showReminderNotification (s : SchedulerState) (_task : Task) (ctorThrows : Bool) :
    SchedulerState × Bool :=
  if s.permissionGranted = false then (s, false)
  else if ctorThrows then (s, true)
  else
    let r := setTimeout s Callback.autoClose 10000
    (r.2, false)

/-- `NotificationService.showExactTimeNotification(task)` (lines 130-154):
same shape as the reminder path with a 20 s auto-close; again no try/catch
around the `Notification` constructor. -/
def showExactTimeNotification (s : SchedulerState) (_task : Task) (ctorThrows : Bool) :
    SchedulerState × Bool :=
  if s.permissionGranted = false then (s, false)
  else if ctorThrows then (s, true)
  else
    let r := setTimeout s Callback.autoClose 20000
    (r.2, false)

/-- Run a fired timer's callback.  The due-now closure (lines 96-99) calls
`showExactTimeNotification` and then deletes the task's own key — but only if
the show call returned normally; an escaping exception skips the delete.  The
reminder closure (lines 89-91) only calls `showReminderNotification`: it never
removes its map entry.  Auto-close callbacks only close the platform
notification and do not touch scheduler state. -/
def runCallback (s : SchedulerState) (cb : Callback) (ctorThrows : Bool) :
    SchedulerState × Bool :=
  match cb with
  | Callback.fireReminder task => showReminderNotification s task ctorThrows
  | Callback.fireExact task =>
      let r := showExactTimeNotification s task ctorThrows
      if r.2 then r
      else
        let m2 := mapDelete r.1.scheduledNotifications (AlertKey.due task.id)
        ({ r.1 with scheduledNotifications := m2 }, false)
  | Callback.autoClose => (s, false)

/-- The browser firing the one-shot timer `tid`: the timer is dequeued first,
then its callback runs; the boolean reports an exception escaping the
callback (the browser surfaces it as an uncaught error). -/
def fireTimer (s : SchedulerState) (tid : Nat) (ctorThrows : Bool) :
    SchedulerState × Bool :=
  match s.pendingTimers.find? (fun pt => decide (pt.timerId = tid)) with
  | none => (s, false)
  | some pt =>
      let s1 := { s with pendingTimers :=
        s.pendingTimers.filter (fun q => !decide (q.timerId = tid)) }
      runCallback s1 pt.cb ctorThrows

/-- `NotificationService.getScheduledNotificationCount()` (lines 263-265). -/
def getScheduledNotificationCount (s : SchedulerState) : Nat :=
  s.scheduledNotifications.length

/-- `NotificationService.isTaskScheduled(taskId)` (lines 267-269). -/
def isTaskScheduled (s : SchedulerState) (taskId : Int) : Bool :=
  mapHas s.scheduledNotifications (AlertKey.due taskId) ||
  mapHas s.scheduledNotifications (AlertKey.reminder taskId)

/-- Number of map entries whose key belongs to the given task id (its due-now
key or its reminder key): the "pending alert entries for that task's id". -/
def alertCountFor (s : SchedulerState) (taskId : Int) : Nat :=
  (s.scheduledNotifications.filter
    (fun p => decide (p.1 = AlertKey.due taskId) || decide (p.1 = AlertKey.reminder taskId))).length

/-- Browser platform permission values for the Notification API. -/
inductive Permission where
  | state_default
  | granted
  | denied
deriving DecidableEq, Repr

/-- The platform notification surface as seen by one `requestPermission` call:
whether `"Notification" in window` holds, the current `Notification.permission`
value, the value the permission prompt would resolve to, and whether the
prompt call itself throws. -/
structure NotifEnv where
  supported : Bool
  permission : Permission
  promptResult : Permission
  promptThrows : Bool
deriving DecidableEq, Repr

/-- `NotificationService.checkPermission()` (lines 11-25): when the platform is
supported, re-read `Notification.permission` into the internal flag; otherwise
leave the flag alone. -/
def checkPermission (s : SchedulerState) (env : NotifEnv) : SchedulerState :=
  if env.supported then
    { s with permissionGranted := decide (env.permission = Permission.granted) }
  else s

/-- `NotificationService.requestPermission()` (lines 33-67): unsupported →
false; already granted → set the flag and return true; already denied → return
false with no prompt and no flag update; otherwise prompt (a throwing prompt is
caught and yields false), store whether the user granted, re-run
`checkPermission` against the post-prompt platform value, and return the flag. -/
def requestPermission (s : SchedulerState) (env : NotifEnv) : Bool × SchedulerState :=
  if env.supported = false then (false, s)
  else if env.permission = Permission.granted then
    (true, { s with permissionGranted := true })
  else if env.permission = Permission.denied then (false, s)
  else if env.promptThrows then (false, s)
  else
    let s1 := { s with permissionGranted := decide (env.promptResult = Permission.granted) }
    let s2 := checkPermission s1 { env with permission := env.promptResult }
    (s2.permissionGranted, s2)

/-- Well-formedness of reachable scheduler states: the JS `Map` cannot hold a
duplicate key, browser timer handles are positive integers, and the browser's
handle counter never hands out 0. -/
def WF (s : SchedulerState) : Prop :=
  (s.scheduledNotifications.map Prod.fst).Nodup ∧
  (∀ p ∈ s.scheduledNotifications, p.2 ≠ 0) ∧
  s.nextTimerId ≠ 0

instance : DecidablePred WF := fun s => by
  unfold WF
  infer_instance

/-- A freshly constructed service before `checkPermission` runs: no permission,
empty map, no timers, browser handles starting at 1. -/
def initialState : SchedulerState :=
  { permissionGranted := false
    scheduledNotifications := []
    pendingTimers := []
    nextTimerId := 1 }

/-! ## Server side: shared schema, storage and routes -/

/-- A `POST /api/tasks` request body, with each recognized JSON field either
present (as a string, the only shape `insertTaskSchema` accepts) or absent. -/
structure ReqBody where
  title : Option String
  scheduledDate : Option String
  priority : Option String
  category : Option String
deriving DecidableEq, Repr

/-- The value produced by a successful `insertTaskSchema.parse`
(shared/schema.ts lines 15-20): the `scheduledDate` string is carried through
to be transformed by the external JS date parser, which never fails. -/
structure InsertTask where
  title : String
  scheduledDate : String
  priority : String
  category : String
deriving DecidableEq, Repr

def defaultPriority : String := "medium"

def defaultCategory : String := "personal"

def requiredIssue : String := "Required"

def titleRequiredIssue : String := "Title is required"

def invalidTaskDataMsg : String := "Invalid task data"

def failedToCreateMsg : String := "Failed to create task"

/-- Validation issues raised for a field that must be a non-empty string
(`z.string().min(1, "Title is required")`): a missing field is `Required`, an
empty string violates the min-length message. -/
def titleIssues (o : Option String) : List String :=
  match o with
  | none => [requiredIssue]
  | some t => if t.isEmpty then [titleRequiredIssue] else []

/-- Validation issues for `scheduledDate` (`z.string().transform(...)`): only
a missing field fails; the transform `new Date(str)` is total in JS. -/
def dateIssues (o : Option String) : List String :=
  match o with
  | none => [requiredIssue]
  | some _ => []

/-- `insertTaskSchema.parse(req.body)` (shared/schema.ts lines 15-20): collect
the issues of the two required fields; on success apply the `.default(...)`
wrappers of `priority` and `category`. -/
def insertTaskSchemaParse (body : ReqBody) : Except (List String) InsertTask :=
  match body.title, body.scheduledDate with
  | some t, some d =>
      if t.isEmpty then Except.error [titleRequiredIssue]
      else
        Except.ok
          { title := t
            scheduledDate := d
            priority := body.priority.getD defaultPriority
            category := body.category.getD defaultCategory }
  | a, b => Except.error (titleIssues a ++ dateIssues b)

/-- State of the `tasks` table: its rows and the serial-id sequence. -/
structure TasksState where
  rows : List Task
  nextId : Int
deriving DecidableEq, Repr

/-- Bodies of the HTTP responses the task routes produce. -/
inductive RespBody where
  | task (t : Task)
  | tasksArr (ts : List Task)
  | errorBody (error : String) (details : List String)
  | empty
deriving DecidableEq, Repr

/-- An HTTP response: status code and JSON body. -/
structure Response where
  status : Nat
  body : RespBody
deriving DecidableEq, Repr

/-- `DatabaseStorage.createTask` (server/storage.ts lines 306-317): insert a
row with the serial id, JS-falsy (empty-string) `priority`/`category` replaced
by their defaults, `completed` defaulting to false and `createdAt` to now; the
date string is converted by the external parser `parseDate`. -/
def createTask (parseDate : String → Int) (st : TasksState) (now : Int)
    (it : InsertTask) : TasksState × Task :=
  let t : Task :=
    { id := st.nextId
      title := it.title
      scheduledDate := parseDate it.scheduledDate
      priority := if it.priority.isEmpty then defaultPriority else it.priority
      category := if it.category.isEmpty then defaultCategory else it.category
      completed := false
      createdAt := now }
  ({ rows := st.rows ++ [t], nextId := st.nextId + 1 }, t)

/-- The comparison relation of `getTasks`'s sort comparator
(`a.scheduledDate.getTime() - b.scheduledDate.getTime()` ascending). -/
def taskLe (a b : Task) : Prop := a.scheduledDate ≤ b.scheduledDate

instance : DecidableRel taskLe := fun a b => by
  unfold taskLe
  infer_instance

instance : IsTotal Task taskLe := ⟨fun a b => Int.le_total a.scheduledDate b.scheduledDate⟩

instance : IsTrans Task taskLe := ⟨fun _ _ _ h1 h2 => Int.le_trans h1 h2⟩

/-- `DatabaseStorage.getTasks` (server/storage.ts lines 319-324): select all
rows and sort them ascending by `scheduledDate`. -/
def getTasks (st : TasksState) : List Task :=
  st.rows.insertionSort taskLe

/-- The `GET /api/tasks` handler (server/routes.ts lines 766-773 of the
combined source) on the success path: 200 with the sorted task list. -/
def getTasksRoute (st : TasksState) : Response :=
  { status := 200, body := RespBody.tasksArr (getTasks st) }

/-- The `POST /api/tasks` handler (server/routes.ts lines 776-790 of the
combined source): parse the body with `insertTaskSchema`; a `ZodError` yields
`400 {error, details}` without touching the store, success inserts the row and
yields `201` with the created task. -/
def postTasksRoute (parseDate : String → Int) (st : TasksState) (now : Int)
    (body : ReqBody) : TasksState × Response :=
  match insertTaskSchemaParse body with
  | Except.error issues =>
      (st, { status := 400, body := RespBody.errorBody invalidTaskDataMsg issues })
  | Except.ok it =>
      let r := createTask parseDate st now it
      (r.1, { status := 201, body := RespBody.task r.2 })

/-! ## Map and clearing lemmas -/

/-- All timer handles stored in a map are nonzero (true of every reachable
state, since browser `setTimeout` handles are positive). -/
def goodVals (m : List (AlertKey × Nat)) : Prop := ∀ p ∈ m, p.2 ≠ 0

instance : DecidablePred goodVals := fun m => by
  unfold goodVals
  infer_instance

theorem mapGet_some_mem {m : List (AlertKey × Nat)} {k : AlertKey} {v : Nat}
    (h : mapGet m k = some v) : (k, v) ∈ m := by
  unfold mapGet at h
  cases hf : m.find? (fun p => decide (p.1 = k)) with
  | none => rw [hf] at h; simp at h
  | some p =>
      rw [hf] at h
      simp only [Option.map_some'] at h
      have hk : p.1 = k := by simpa using List.find?_some hf
      have hm : p ∈ m := List.mem_of_find?_eq_some hf
      have : p = (k, v) := by
        cases p with
        | mk a b => simp only [Option.some.injEq] at h; simp_all
      rw [← this]
      exact hm

theorem mapGet_none_delete {m : List (AlertKey × Nat)} {k : AlertKey}
    (h : mapGet m k = none) : mapDelete m k = m := by
  unfold mapGet at h
  cases hf : m.find? (fun p => decide (p.1 = k)) with
  | some p => rw [hf] at h; simp at h
  | none =>
      have hall := List.find?_eq_none.mp hf
      unfold mapDelete
      rw [List.filter_eq_self]
      intro p hp
      simpa using hall p hp

theorem mem_mapDelete {m : List (AlertKey × Nat)} {k : AlertKey} {p : AlertKey × Nat}
    (h : p ∈ mapDelete m k) : p ∈ m ∧ p.1 ≠ k := by
  unfold mapDelete at h
  have := List.mem_filter.mp h
  simpa using this

theorem goodVals_mapDelete {m : List (AlertKey × Nat)} {k : AlertKey}
    (h : goodVals m) : goodVals (mapDelete m k) :=
  fun p hp => h p (mem_mapDelete hp).1

/-- Under positive handles, `clearNotification` acts on the map exactly as
deleting the due-now key then the reminder key. -/
theorem clearNotification_map_eq {s : SchedulerState} {taskId : Int}
    (h : goodVals s.scheduledNotifications) :
    (clearNotification s taskId).scheduledNotifications =
      mapDelete (mapDelete s.scheduledNotifications (AlertKey.due taskId))
        (AlertKey.reminder taskId) := by
  unfold clearNotification
  cases hdue : mapGet s.scheduledNotifications (AlertKey.due taskId) with
  | none =>
      rw [mapGet_none_delete hdue]
      cases hrem : mapGet s.scheduledNotifications (AlertKey.reminder taskId) with
      | none => simp only [hrem]; rw [mapGet_none_delete hrem]
      | some tid2 =>
          have h2 : tid2 ≠ 0 := h _ (mapGet_some_mem hrem)
          simp only [hrem, h2, ne_eq, not_false_eq_true, if_true, clearTimeout]
  | some tid =>
      have h1 : tid ≠ 0 := h _ (mapGet_some_mem hdue)
      simp only [hdue, h1, ne_eq, not_false_eq_true, if_true, clearTimeout]
      cases hrem : mapGet (mapDelete s.scheduledNotifications (AlertKey.due taskId))
          (AlertKey.reminder taskId) with
      | none =>
          simp only [hrem]
          rw [mapGet_none_delete hrem]
      | some tid2 =>
          have h2 : tid2 ≠ 0 :=
            goodVals_mapDelete h _ (mapGet_some_mem hrem)
          simp only [hrem, h2, ne_eq, not_false_eq_true, if_true, clearTimeout]

theorem clearNotification_no_keys {s : SchedulerState} {taskId : Int}
    (h : goodVals s.scheduledNotifications) :
    ∀ p ∈ (clearNotification s taskId).scheduledNotifications,
      p.1 ≠ AlertKey.due taskId ∧ p.1 ≠ AlertKey.reminder taskId := by
  intro p hp
  rw [clearNotification_map_eq h] at hp
  have h1 := mem_mapDelete hp
  have h2 := mem_mapDelete h1.1
  exact ⟨h2.2, h1.2⟩

theorem clearNotification_goodVals {s : SchedulerState} {taskId : Int}
    (h : goodVals s.scheduledNotifications) :
    goodVals (clearNotification s taskId).scheduledNotifications := by
  rw [clearNotification_map_eq h]
  exact goodVals_mapDelete (goodVals_mapDelete h)

theorem mapHas_false_of_no_mem {m : List (AlertKey × Nat)} {k : AlertKey}
    (h : ∀ p ∈ m, p.1 ≠ k) : mapHas m k = false := by
  unfold mapHas
  rw [List.any_eq_false]
  intro p hp
  simpa using h p hp

theorem clearNotification_isTaskScheduled {s : SchedulerState} {taskId : Int}
    (h : goodVals s.scheduledNotifications) :
    isTaskScheduled (clearNotification s taskId) taskId = false := by
  unfold isTaskScheduled
  have hk := @clearNotification_no_keys s taskId h
  rw [mapHas_false_of_no_mem (fun p hp => (hk p hp).1),
      mapHas_false_of_no_mem (fun p hp => (hk p hp).2)]
  rfl

theorem alertCountFor_eq_zero_of_no_keys {s : SchedulerState} {taskId : Int}
    (h : ∀ p ∈ s.scheduledNotifications,
      p.1 ≠ AlertKey.due taskId ∧ p.1 ≠ AlertKey.reminder taskId) :
    alertCountFor s taskId = 0 := by
  unfold alertCountFor
  rw [List.length_eq_zero, List.filter_eq_nil_iff]
  intro p hp
  have := h p hp
  simp [this.1, this.2]

/-! ## Characterizations of scheduleNotification -/

theorem scheduleNotification_noperm {s : SchedulerState} {now : Int} {task : Task}
    (hp : s.permissionGranted = false) :
    scheduleNotification s now task = s := by
  unfold scheduleNotification
  rw [hp]
  simp

theorem scheduleNotification_past_eq {s : SchedulerState} {now : Int} {task : Task}
    (hp : s.permissionGranted = true)
    (hd : task.scheduledDate - now < 0) :
    scheduleNotification s now task = clearNotification s task.id := by
  unfold scheduleNotification
  rw [hp]
  simp [hd]

theorem scheduleNotification_near_eq {s : SchedulerState} {now : Int} {task : Task}
    (hp : s.permissionGranted = true)
    (h0 : 0 ≤ task.scheduledDate - now)
    (h5 : task.scheduledDate - now ≤ 5 * 60 * 1000) :
    scheduleNotification s now task =
      { clearNotification s task.id with
        scheduledNotifications :=
          mapSet (clearNotification s task.id).scheduledNotifications
            (AlertKey.due task.id) (clearNotification s task.id).nextTimerId
        pendingTimers :=
          (clearNotification s task.id).pendingTimers ++
            [⟨(clearNotification s task.id).nextTimerId, task.scheduledDate - now,
              Callback.fireExact task⟩]
        nextTimerId := (clearNotification s task.id).nextTimerId + 1 } := by
  have hmax : max (task.scheduledDate - now - 5 * 60 * 1000) 0 = 0 :=
    max_eq_right (by omega)
  have hd : ¬ (task.scheduledDate - now < 0) := by omega
  have hif : ¬ (300000 + now < task.scheduledDate) := by omega
  unfold scheduleNotification setTimeout
  rw [hp]
  simp [hd, hmax, hif]

theorem scheduleNotification_far_eq {s : SchedulerState} {now : Int} {task : Task}
    (hp : s.permissionGranted = true)
    (h5 : 5 * 60 * 1000 < task.scheduledDate - now) :
    scheduleNotification s now task =
      { clearNotification s task.id with
        scheduledNotifications :=
          mapSet
            (mapSet (clearNotification s task.id).scheduledNotifications
              (AlertKey.reminder task.id) (clearNotification s task.id).nextTimerId)
            (AlertKey.due task.id) ((clearNotification s task.id).nextTimerId + 1)
        pendingTimers :=
          (clearNotification s task.id).pendingTimers ++
            [⟨(clearNotification s task.id).nextTimerId,
              task.scheduledDate - now - 5 * 60 * 1000, Callback.fireReminder task⟩,
             ⟨(clearNotification s task.id).nextTimerId + 1, task.scheduledDate - now,
              Callback.fireExact task⟩]
        nextTimerId := (clearNotification s task.id).nextTimerId + 2 } := by
  have hmax : max (task.scheduledDate - now - 5 * 60 * 1000) 0 =
      task.scheduledDate - now - 5 * 60 * 1000 :=
    max_eq_left (by omega)
  have hd : ¬ (task.scheduledDate - now < 0) := by omega
  have hgt : task.scheduledDate - now - 5 * 60 * 1000 > 0 := by omega
  have hif : 300000 + now < task.scheduledDate := by omega
  unfold scheduleNotification setTimeout
  rw [hp]
  simp [hd, hmax, hgt, hif]
  omega

theorem mapSet_append {m : List (AlertKey × Nat)} {k : AlertKey} {v : Nat}
    (h : mapHas m k = false) : mapSet m k v = m ++ [(k, v)] := by
  unfold mapSet
  rw [h]
  simp

theorem clearNotification_permissionGranted (s : SchedulerState) (taskId : Int) :
    (clearNotification s taskId).permissionGranted = s.permissionGranted := by
  unfold clearNotification clearTimeout
  repeat' split
  all_goals simp only []
  all_goals repeat' split
  all_goals rfl

theorem clearNotification_nextTimerId (s : SchedulerState) (taskId : Int) :
    (clearNotification s taskId).nextTimerId = s.nextTimerId := by
  unfold clearNotification clearTimeout
  repeat' split
  all_goals simp only []
  all_goals repeat' split
  all_goals rfl

/-- After scheduling a task due within the 5-minute window, the map is the
cleared map plus the fresh due-now entry only. -/
theorem scheduleNotification_near_map {s : SchedulerState} {now : Int} {task : Task}
    (hp : s.permissionGranted = true)
    (h0 : 0 ≤ task.scheduledDate - now)
    (h5 : task.scheduledDate - now ≤ 5 * 60 * 1000)
    (hv : goodVals s.scheduledNotifications) :
    (scheduleNotification s now task).scheduledNotifications =
      (clearNotification s task.id).scheduledNotifications ++
        [(AlertKey.due task.id, (clearNotification s task.id).nextTimerId)] := by
  rw [scheduleNotification_near_eq hp h0 h5]
  have hdue : mapHas (clearNotification s task.id).scheduledNotifications
      (AlertKey.due task.id) = false :=
    mapHas_false_of_no_mem (fun p hp' => (clearNotification_no_keys hv p hp').1)
  exact mapSet_append hdue

/-- After scheduling a task due beyond the 5-minute window, the map is the
cleared map plus the fresh reminder and due-now entries. -/
theorem scheduleNotification_far_map {s : SchedulerState} {now : Int} {task : Task}
    (hp : s.permissionGranted = true)
    (h5 : 5 * 60 * 1000 < task.scheduledDate - now)
    (hv : goodVals s.scheduledNotifications) :
    (scheduleNotification s now task).scheduledNotifications =
      (clearNotification s task.id).scheduledNotifications ++
        [(AlertKey.reminder task.id, (clearNotification s task.id).nextTimerId),
         (AlertKey.due task.id, (clearNotification s task.id).nextTimerId + 1)] := by
  rw [scheduleNotification_far_eq hp h5]
  have hrem : mapHas (clearNotification s task.id).scheduledNotifications
      (AlertKey.reminder task.id) = false :=
    mapHas_false_of_no_mem (fun p hp' => (clearNotification_no_keys hv p hp').2)
  rw [mapSet_append hrem]
  have hdue : mapHas ((clearNotification s task.id).scheduledNotifications ++
      [(AlertKey.reminder task.id, (clearNotification s task.id).nextTimerId)])
      (AlertKey.due task.id) = false := by
    apply mapHas_false_of_no_mem
    intro p hp'
    rcases List.mem_append.mp hp' with h1 | h1
    · exact (clearNotification_no_keys hv p h1).1
    · simp at h1
      simp [h1]
  rw [mapSet_append hdue]
  simp

theorem WF_clearNotification {s : SchedulerState} {taskId : Int} (h : WF s) :
    WF (clearNotification s taskId) := by
  obtain ⟨hnd, hgv, hnz⟩ := h
  refine ⟨?_, ?_, ?_⟩
  · rw [clearNotification_map_eq hgv]
    exact ((List.filter_sublist _).map Prod.fst).nodup
      (((List.filter_sublist _).map Prod.fst).nodup hnd)
  · rw [clearNotification_map_eq hgv]
    exact goodVals_mapDelete (goodVals_mapDelete hgv)
  · rw [clearNotification_nextTimerId]
    exact hnz

theorem WF_scheduleNotification {s : SchedulerState} {now : Int} {task : Task}
    (h : WF s) : WF (scheduleNotification s now task) := by
  cases hp : s.permissionGranted with
  | false => rw [scheduleNotification_noperm hp]; exact h
  | true =>
      have hc := @WF_clearNotification s task.id h
      obtain ⟨hnd, hgv, hnz⟩ := hc
      have hnokeys := @clearNotification_no_keys s task.id h.2.1
      have hnz0 : (clearNotification s task.id).nextTimerId ≠ 0 := hnz
      by_cases hpast : task.scheduledDate - now < 0
      · rw [scheduleNotification_past_eq hp hpast]
        exact ⟨hnd, hgv, hnz⟩
      · by_cases hnear : task.scheduledDate - now ≤ 5 * 60 * 1000
        · have hmap := scheduleNotification_near_map hp (by omega) hnear h.2.1
          have hrest := scheduleNotification_near_eq hp (by omega) hnear
          refine ⟨?_, ?_, ?_⟩
          · rw [hmap]
            simp only [List.map_append, List.map_cons, List.map_nil]
            rw [List.nodup_append]
            refine ⟨hnd, by simp, ?_⟩
            intro k hk
            simp only [List.mem_singleton]
            obtain ⟨p, hpmem, rfl⟩ := List.mem_map.mp hk
            simp [(hnokeys p hpmem).1]
          · rw [hmap]
            intro p hpmem
            rcases List.mem_append.mp hpmem with h1 | h1
            · exact hgv p h1
            · simp at h1
              simp [h1, hnz0]
          · rw [hrest]
            simp
        · have h5 : 5 * 60 * 1000 < task.scheduledDate - now := by omega
          have hmap := scheduleNotification_far_map hp h5 h.2.1
          have hrest := scheduleNotification_far_eq hp h5
          refine ⟨?_, ?_, ?_⟩
          · rw [hmap]
            simp only [List.map_append, List.map_cons, List.map_nil]
            rw [List.nodup_append]
            refine ⟨hnd, by simp, ?_⟩
            intro k hk
            obtain ⟨p, hpmem, rfl⟩ := List.mem_map.mp hk
            simp [(hnokeys p hpmem).1, (hnokeys p hpmem).2]
          · rw [hmap]
            intro p hpmem
            rcases List.mem_append.mp hpmem with h1 | h1
            · exact hgv p h1
            · rcases List.mem_cons.mp h1 with h2 | h2
              · simp [h2, hnz0]
              · simp at h2
                simp [h2]
          · rw [hrest]
            simp

/-- With no duplicate keys, a task id can have at most its two possible
entries in the map. -/
theorem alertCountFor_le_two {s : SchedulerState} {taskId : Int}
    (h : (s.scheduledNotifications.map Prod.fst).Nodup) :
    alertCountFor s taskId ≤ 2 := by
  unfold alertCountFor
  have hsub : (s.scheduledNotifications.filter
      (fun p : AlertKey × Nat => decide (p.1 = AlertKey.due taskId) ||
        decide (p.1 = AlertKey.reminder taskId))).Sublist s.scheduledNotifications :=
    List.filter_sublist s.scheduledNotifications
  have hnd : ((s.scheduledNotifications.filter
      (fun p => decide (p.1 = AlertKey.due taskId) ||
        decide (p.1 = AlertKey.reminder taskId))).map Prod.fst).Nodup :=
    (hsub.map Prod.fst).nodup h
  have hss : (s.scheduledNotifications.filter
      (fun p => decide (p.1 = AlertKey.due taskId) ||
        decide (p.1 = AlertKey.reminder taskId))).map Prod.fst ⊆
      [AlertKey.due taskId, AlertKey.reminder taskId] := by
    intro k hk
    obtain ⟨p, hpmem, rfl⟩ := List.mem_map.mp hk
    have := (List.mem_filter.mp hpmem).2
    simp only [Bool.or_eq_true, decide_eq_true_eq] at this
    rcases this with h1 | h1 <;> simp [h1]
  have hlen := (hnd.subperm hss).length_le
  simpa using hlen

theorem mapHas_mapDelete_self (m : List (AlertKey × Nat)) (k : AlertKey) :
    mapHas (mapDelete m k) k = false :=
  mapHas_false_of_no_mem (fun _p hp => (mem_mapDelete hp).2)

/-! ## Concrete sample states -/

/-- A service with permission granted and nothing scheduled. -/
def sampleState : SchedulerState :=
  { permissionGranted := true
    scheduledNotifications := []
    pendingTimers := []
    nextTimerId := 1 }

/-- A task due 10 minutes after epoch. -/
def taskFar : Task :=
  { id := 1
    title := "write report"
    scheduledDate := 600000
    priority := "high"
    category := "work"
    completed := false
    createdAt := 0 }

/-- A task due 2 minutes after epoch. -/
def taskNear : Task :=
  { taskFar with id := 2, scheduledDate := 120000 }

/-- The same task id as `taskFar`, already one minute overdue. -/
def taskPast1 : Task :=
  { taskFar with scheduledDate := -60000 }

/-- `sampleState` right after scheduling `taskFar` at time 0: reminder timer 1
at +5 min, due-now timer 2 at +10 min. -/
def sFar : SchedulerState := scheduleNotification sampleState 0 taskFar

/-! ## Claims -/

/-- C1: with the permission flag granted (and over reachable maps, whose timer
handles are the positive integers `setTimeout` returns), `scheduleNotification`
leaves exactly two pending alert entries for the task's id (reminder and
due-now) when the task is due more than 5 minutes from now, exactly one (the
due-now entry only) when it is due within 0 to 5 minutes, and zero when it is
already past due. -/
theorem scheduleNotification_alert_counts
    (s : SchedulerState) (now : Int) (task : Task)
    (hp : s.permissionGranted = true)
    (hv : goodVals s.scheduledNotifications) :
    (5 * 60 * 1000 < task.scheduledDate - now →
      alertCountFor (scheduleNotification s now task) task.id = 2 ∧
      mapHas (scheduleNotification s now task).scheduledNotifications
        (AlertKey.due task.id) = true ∧
      mapHas (scheduleNotification s now task).scheduledNotifications
        (AlertKey.reminder task.id) = true) ∧
    (0 ≤ task.scheduledDate - now → task.scheduledDate - now ≤ 5 * 60 * 1000 →
      alertCountFor (scheduleNotification s now task) task.id = 1 ∧
      mapHas (scheduleNotification s now task).scheduledNotifications
        (AlertKey.due task.id) = true ∧
      mapHas (scheduleNotification s now task).scheduledNotifications
        (AlertKey.reminder task.id) = false) ∧
    (task.scheduledDate - now < 0 →
      alertCountFor (scheduleNotification s now task) task.id = 0) := by
  have hnk := @clearNotification_no_keys s task.id hv
  have hfil : List.filter
      (fun p : AlertKey × Nat => decide (p.1 = AlertKey.due task.id) ||
        decide (p.1 = AlertKey.reminder task.id))
      (clearNotification s task.id).scheduledNotifications = [] :=
    List.filter_eq_nil_iff.mpr
      (fun p hp' => by simp [(hnk p hp').1, (hnk p hp').2])
  have hremfalse : List.any (clearNotification s task.id).scheduledNotifications
      (fun p => decide (p.1 = AlertKey.reminder task.id)) = false :=
    List.any_eq_false.mpr (fun p hp' => by simp [(hnk p hp').2])
  refine ⟨fun h5 => ?_, fun h0 h5 => ?_, fun hpast => ?_⟩
  · have hmap := scheduleNotification_far_map hp h5 hv
    refine ⟨?_, ?_, ?_⟩
    · unfold alertCountFor
      rw [hmap, List.filter_append, hfil]
      simp
    · unfold mapHas
      rw [hmap]
      simp [List.any_append]
    · unfold mapHas
      rw [hmap]
      simp [List.any_append]
  · have hmap := scheduleNotification_near_map hp h0 h5 hv
    refine ⟨?_, ?_, ?_⟩
    · unfold alertCountFor
      rw [hmap, List.filter_append, hfil]
      simp
    · unfold mapHas
      rw [hmap]
      simp [List.any_append]
    · unfold mapHas
      rw [hmap, List.any_append, hremfalse]
      simp
  · rw [scheduleNotification_past_eq hp hpast]
    exact alertCountFor_eq_zero_of_no_keys hnk

/-- C1 witness: scheduling the 10-minutes-out task from the granted empty
state leaves exactly two entries for its id. -/
theorem scheduleNotification_alert_counts_witness :
    sampleState.permissionGranted = true ∧
    goodVals sampleState.scheduledNotifications ∧
    5 * 60 * 1000 < taskFar.scheduledDate - 0 ∧
    alertCountFor (scheduleNotification sampleState 0 taskFar) taskFar.id = 2 :=
  ⟨rfl, by decide, by decide,
    ((scheduleNotification_alert_counts sampleState 0 taskFar rfl (by decide)).1
      (by decide)).1⟩

/-- C4: over reachable states (unique map keys, positive timer handles),
calling `scheduleNotification` twice in succession for the same task leaves at
most two pending alert entries for that task's id. -/
theorem scheduleNotification_twice_at_most_two
    (s : SchedulerState) (now1 now2 : Int) (task : Task) (h : WF s) :
    alertCountFor (scheduleNotification (scheduleNotification s now1 task) now2 task)
      task.id ≤ 2 :=
  alertCountFor_le_two
    (WF_scheduleNotification (WF_scheduleNotification h)).1

/-- C4 witness: two consecutive schedulings of the same task from the granted
empty state leave at most two entries. -/
theorem scheduleNotification_twice_at_most_two_witness :
    WF sampleState ∧
    alertCountFor
      (scheduleNotification (scheduleNotification sampleState 0 taskFar) 1000 taskFar)
      taskFar.id ≤ 2 :=
  ⟨by decide,
    scheduleNotification_twice_at_most_two sampleState 0 1000 taskFar (by decide)⟩

/-- C5: over reachable maps (positive timer handles), `clearNotification`
removes both the due-now and the reminder entry for the id (absent entries are
a no-op), so `isTaskScheduled` is false immediately afterwards. -/
theorem clearNotification_then_not_scheduled
    (s : SchedulerState) (taskId : Int)
    (hv : goodVals s.scheduledNotifications) :
    mapHas (clearNotification s taskId).scheduledNotifications
      (AlertKey.due taskId) = false ∧
    mapHas (clearNotification s taskId).scheduledNotifications
      (AlertKey.reminder taskId) = false ∧
    isTaskScheduled (clearNotification s taskId) taskId = false := by
  have hnk := @clearNotification_no_keys s taskId hv
  exact ⟨mapHas_false_of_no_mem (fun p hp => (hnk p hp).1),
    mapHas_false_of_no_mem (fun p hp => (hnk p hp).2),
    clearNotification_isTaskScheduled hv⟩

/-- C5 witness: clearing the fully scheduled task 1 (both entries present)
leaves it unscheduled. -/
theorem clearNotification_then_not_scheduled_witness :
    goodVals sFar.scheduledNotifications ∧
    isTaskScheduled sFar 1 = true ∧
    isTaskScheduled (clearNotification sFar 1) 1 = false :=
  ⟨by decide, by decide,
    (clearNotification_then_not_scheduled sFar 1 (by decide)).2.2⟩

/-- C6: whenever `scheduleNotification` creates a reminder entry (task due
more than 5 minutes out), the two timers it enqueues are the reminder followed
by the due-now timer, the reminder delay equals the due-now delay minus
5 minutes, and is therefore strictly smaller, so the reminder fires strictly
first. -/
theorem reminder_delay_lt_due_delay
    (s : SchedulerState) (now : Int) (task : Task)
    (hp : s.permissionGranted = true)
    (h5 : 5 * 60 * 1000 < task.scheduledDate - now) :
    ∃ l tr te, (scheduleNotification s now task).pendingTimers = l ++ [tr, te] ∧
      tr.cb = Callback.fireReminder task ∧
      te.cb = Callback.fireExact task ∧
      tr.delay = (task.scheduledDate - now) - 5 * 60 * 1000 ∧
      te.delay = task.scheduledDate - now ∧
      tr.delay < te.delay := by
  rw [scheduleNotification_far_eq hp h5]
  refine ⟨(clearNotification s task.id).pendingTimers,
    ⟨(clearNotification s task.id).nextTimerId,
      task.scheduledDate - now - 5 * 60 * 1000, Callback.fireReminder task⟩,
    ⟨(clearNotification s task.id).nextTimerId + 1,
      task.scheduledDate - now, Callback.fireExact task⟩,
    rfl, rfl, rfl, rfl, rfl,
    (by omega : task.scheduledDate - now - 5 * 60 * 1000 < task.scheduledDate - now)⟩

/-- C6 witness: for the 10-minutes-out task the reminder timer is enqueued
before and with a strictly smaller delay than the due-now timer. -/
theorem reminder_delay_lt_due_delay_witness :
    sampleState.permissionGranted = true ∧
    5 * 60 * 1000 < taskFar.scheduledDate - 0 ∧
    (∃ l tr te,
      (scheduleNotification sampleState 0 taskFar).pendingTimers = l ++ [tr, te] ∧
      tr.cb = Callback.fireReminder taskFar ∧
      te.cb = Callback.fireExact taskFar ∧
      tr.delay = (taskFar.scheduledDate - 0) - 5 * 60 * 1000 ∧
      te.delay = taskFar.scheduledDate - 0 ∧
      tr.delay < te.delay) :=
  ⟨rfl, by decide,
    reminder_delay_lt_due_delay sampleState 0 taskFar rfl (by decide)⟩

/-- C10: with permission granted and over reachable maps, scheduling a
past-due task is exactly a `clearNotification` for its id (and in particular
not a pure no-op): afterwards `isTaskScheduled` is false whatever was pending
before. -/
theorem scheduleNotification_past_clears
    (s : SchedulerState) (now : Int) (task : Task)
    (hp : s.permissionGranted = true)
    (hpast : task.scheduledDate - now < 0)
    (hv : goodVals s.scheduledNotifications) :
    scheduleNotification s now task = clearNotification s task.id ∧
    isTaskScheduled (scheduleNotification s now task) task.id = false := by
  refine ⟨scheduleNotification_past_eq hp hpast, ?_⟩
  rw [scheduleNotification_past_eq hp hpast]
  exact clearNotification_isTaskScheduled hv

/-- C10 witness: rescheduling task 1 as overdue from the state where both its
alerts are pending clears them. -/
theorem scheduleNotification_past_clears_witness :
    sFar.permissionGranted = true ∧
    taskPast1.scheduledDate - 700000 < 0 ∧
    goodVals sFar.scheduledNotifications ∧
    isTaskScheduled sFar 1 = true ∧
    isTaskScheduled (scheduleNotification sFar 700000 taskPast1) taskPast1.id = false :=
  ⟨by decide, by decide, by decide, by decide,
    (scheduleNotification_past_clears sFar 700000 taskPast1 (by decide) (by decide)
      (by decide)).2⟩

/-- C2 counterexample: in the state where task 1 has its reminder timer 1 and
due-now timer 2 pending, firing the reminder leaves the reminder key in the
mapping (the reminder callback does no self-cleanup), so the task still counts
as scheduled — refuting the claim that the reminder entry is removed by its
own deferred callback logic. -/
theorem reminder_key_survives_firing :
    sFar.pendingTimers = [⟨1, 300000, Callback.fireReminder taskFar⟩,
      ⟨2, 600000, Callback.fireExact taskFar⟩] ∧
    mapHas (fireTimer sFar 1 false).1.scheduledNotifications
      (AlertKey.reminder 1) = true ∧
    isTaskScheduled (fireTimer sFar 1 false).1 1 = true := by decide

/-- C2 (amended): when a scheduled alert fires and the platform constructor
does not throw, the due-now callback removes the task's own key from the map
(self-cleanup), but the reminder callback leaves the map entirely unchanged:
the reminder key stays until explicitly cleared or rescheduled. -/
theorem fired_callback_map_cleanup
    (s : SchedulerState) (tid : Nat) (task : Task) (pt : PendingTimer)
    (hfind : s.pendingTimers.find? (fun q => decide (q.timerId = tid)) = some pt) :
    (pt.cb = Callback.fireExact task →
      mapHas (fireTimer s tid false).1.scheduledNotifications
        (AlertKey.due task.id) = false) ∧
    (pt.cb = Callback.fireReminder task →
      (fireTimer s tid false).1.scheduledNotifications = s.scheduledNotifications) := by
  unfold fireTimer
  rw [hfind]
  dsimp only
  constructor
  · intro hcb
    rw [hcb]
    unfold runCallback showExactTimeNotification setTimeout
    cases hg : s.permissionGranted <;> simp [hg, mapHas_mapDelete_self]
  · intro hcb
    rw [hcb]
    unfold runCallback showReminderNotification setTimeout
    cases hg : s.permissionGranted <;> simp [hg]

/-- C2 witness: firing the due-now timer 2 of task 1 removes its due key. -/
theorem fired_callback_map_cleanup_witness :
    sFar.pendingTimers.find? (fun q => decide (q.timerId = 2)) =
      some ⟨2, 600000, Callback.fireExact taskFar⟩ ∧
    mapHas (fireTimer sFar 2 false).1.scheduledNotifications
      (AlertKey.due taskFar.id) = false :=
  ⟨by decide,
    (fired_callback_map_cleanup sFar 2 taskFar ⟨2, 600000, Callback.fireExact taskFar⟩
      (by decide)).1 rfl⟩

/-- C3 counterexample: with permission granted, an error thrown by the
platform notification constructor escapes the due-now firing callback and the
reminder firing callback uncaught (there is no try/catch in either), refuting
the claim that such errors are caught inside the scheduler. -/
theorem ctor_error_escapes_firing :
    (fireTimer sFar 2 true).2 = true ∧ (fireTimer sFar 1 true).2 = true := by decide

/-- C3 (amended): with permission granted, an error thrown while constructing
the platform notification during a scheduled alert's firing (reminder or
due-now) is not caught inside the scheduler: it propagates out of the firing
callback. The mapping is left untouched (so even the due-now self-cleanup is
skipped), and only the fired timer itself is consumed, leaving every other
task's pending timers intact. -/
theorem firing_ctor_error_propagates
    (s : SchedulerState) (tid : Nat) (task : Task) (pt : PendingTimer)
    (hfind : s.pendingTimers.find? (fun q => decide (q.timerId = tid)) = some pt)
    (hperm : s.permissionGranted = true)
    (hcb : pt.cb = Callback.fireExact task ∨ pt.cb = Callback.fireReminder task) :
    (fireTimer s tid true).2 = true ∧
    (fireTimer s tid true).1.scheduledNotifications = s.scheduledNotifications ∧
    (fireTimer s tid true).1.pendingTimers =
      s.pendingTimers.filter (fun q => !decide (q.timerId = tid)) := by
  unfold fireTimer
  rw [hfind]
  dsimp only
  rcases hcb with hcb | hcb <;> rw [hcb]
  · unfold runCallback showExactTimeNotification
    simp [hperm]
  · unfold runCallback showReminderNotification
    simp [hperm]

/-- C3 witness: the throwing constructor escapes the firing of due-now
timer 2 in the concrete scheduled state. -/
theorem firing_ctor_error_propagates_witness :
    sFar.pendingTimers.find? (fun q => decide (q.timerId = 2)) =
      some ⟨2, 600000, Callback.fireExact taskFar⟩ ∧
    sFar.permissionGranted = true ∧
    (fireTimer sFar 2 true).2 = true :=
  ⟨by decide, by decide,
    (firing_ctor_error_propagates sFar 2 taskFar ⟨2, 600000, Callback.fireExact taskFar⟩
      (by decide) (by decide) (Or.inl rfl)).1⟩

/-- Platform environment: permission already denied. -/
def envDenied : NotifEnv :=
  { supported := true
    permission := Permission.denied
    promptResult := Permission.state_default
    promptThrows := false }

/-- Platform environment: permission not yet asked, prompt will be granted. -/
def envPrompt : NotifEnv :=
  { supported := true
    permission := Permission.state_default
    promptResult := Permission.granted
    promptThrows := false }

/-- C7 counterexample: with the platform permission already denied but the
internal flag still true (the user revoked permission externally after a
grant), `requestPermission` returns false yet leaves the flag true — so the
internal permission flag is not updated to match the outcome in every case. -/
theorem requestPermission_denied_keeps_flag :
    (requestPermission sampleState envDenied).1 = false ∧
    (requestPermission sampleState envDenied).2.permissionGranted = true := by decide

/-- C7 (amended): on a supported platform, `requestPermission` returns true
immediately when already granted and sets the flag true; returns false
immediately when already denied, without prompting and leaving the internal
flag unchanged (not updated); and otherwise prompts (assuming the prompt does
not throw) and resolves to exactly whether the user granted, setting the flag
to match that outcome. -/
theorem requestPermission_cases (s : SchedulerState) (env : NotifEnv)
    (hs : env.supported = true) :
    (env.permission = Permission.granted →
      requestPermission s env = (true, { s with permissionGranted := true })) ∧
    (env.permission = Permission.denied →
      requestPermission s env = (false, s)) ∧
    (env.permission = Permission.state_default → env.promptThrows = false →
      requestPermission s env =
        (decide (env.promptResult = Permission.granted),
         { s with permissionGranted := decide (env.promptResult = Permission.granted) })) := by
  refine ⟨fun h => ?_, fun h => ?_, fun h hpt => ?_⟩
  · unfold requestPermission
    simp [hs, h]
  · unfold requestPermission
    simp [hs, h]
  · unfold requestPermission checkPermission
    simp [hs, h, hpt]

/-- C7 witness: from the fresh service with the prompt resolving to granted,
`requestPermission` returns true and sets the flag. -/
theorem requestPermission_cases_witness :
    envPrompt.supported = true ∧
    envPrompt.permission = Permission.state_default ∧
    envPrompt.promptThrows = false ∧
    requestPermission initialState envPrompt =
      (true, { initialState with permissionGranted := true }) := by
  refine ⟨rfl, rfl, rfl, ?_⟩
  have h := (requestPermission_cases initialState envPrompt rfl).2.2 rfl rfl
  exact h.trans (by decide)

/-- The empty store. -/
def stEmpty : TasksState := { rows := [], nextId := 1 }

/-- A stand-in for the external JS date parser in concrete runs. -/
def parse0 : String → Int := fun _ => 0

/-- A creation request with an empty title. -/
def emptyTitleBody : ReqBody :=
  { title := some ("")
    scheduledDate := some ("2025-01-01T10:00")
    priority := none
    category := none }

/-- C8: whenever the request body fails `insertTaskSchema` validation, the
POST /api/tasks handler responds 400 with an error field and the validation
details, and the store is unchanged — `createTask` is never reached. -/
theorem postTasks_validation_rejects
    (parseDate : String → Int) (st : TasksState) (now : Int)
    (body : ReqBody) (issues : List String)
    (h : insertTaskSchemaParse body = Except.error issues) :
    postTasksRoute parseDate st now body =
      (st, { status := 400, body := RespBody.errorBody invalidTaskDataMsg issues }) := by
  unfold postTasksRoute
  rw [h]

/-- C8 witness: the empty-title body fails validation with the title message
and creates no row. -/
theorem postTasks_validation_rejects_witness :
    insertTaskSchemaParse emptyTitleBody = Except.error [titleRequiredIssue] ∧
    postTasksRoute parse0 stEmpty 0 emptyTitleBody =
      (stEmpty, { status := 400, body := RespBody.errorBody invalidTaskDataMsg [titleRequiredIssue] }) :=
  ⟨rfl,
    postTasks_validation_rejects parse0 stEmpty 0 emptyTitleBody
      [titleRequiredIssue] rfl⟩

/-- C9: for every state of the store, the GET /api/tasks route returns 200
with the list produced by `getTasks`, which is sorted ascending by
`scheduledDate`. -/
theorem getTasks_sorted (st : TasksState) :
    (getTasksRoute st).status = 200 ∧
    (getTasksRoute st).body = RespBody.tasksArr (getTasks st) ∧
    List.Sorted taskLe (getTasks st) :=
  ⟨rfl, rfl, List.sorted_insertionSort taskLe st.rows⟩

end TTT
